import Mathlib

/-!
Shallow embedding of `sat_declaration_filler.py` (an automation bot that
fills the Mexican SAT provisional tax declaration from an Excel workpaper).

Monetary amounts are modelled as exact rationals (`ℚ`); the Python source
uses IEEE floats, but every claim checked here concerns comparisons and
arithmetic whose outcomes agree on the exact values involved.  Python
string processing is modelled over `List Char` (Lean `String` functions
such as `String.trim` do not reduce in the kernel, the character-list
versions below are extensionally the same operations).  Scalar Python
values that can flow through the Excel-reading helpers are modelled by the
`PyVal` type (`None`, numbers, strings, datetimes).
-/

namespace SatFiller

/-- A Python scalar value as it reaches `_parse_currency` / the cell
helpers: `None`, an `int`/`float` (modelled exactly as `ℚ`), a `str`, or a
`datetime` (any object with `year`/`month` attributes). -/
inductive PyVal where
  | none : PyVal
  | num : ℚ → PyVal
  | str : String → PyVal
  | datetime : PyVal
deriving DecidableEq

/-- Python `str.strip()` on a character list: drop whitespace from both
ends. -/
def trimChars (cs : List Char) : List Char :=
  ((cs.dropWhile Char.isWhitespace).reverse.dropWhile Char.isWhitespace).reverse

/-- Digits of a numeral string folded to a natural number
(Python `int(digit_str)` on an ASCII digit string). -/
def natOfDigits (ds : List Char) : ℕ :=
  ds.foldl (fun n ch => n * 10 + (ch.toNat - '0'.toNat)) 0

/-- Syntactic pieces of a decimal float literal: sign, integer digits,
fractional digits (with their count), exponent sign and digits. -/
structure NumRepr where
  neg : Bool
  intPart : ℕ
  fracPart : ℕ
  fracLen : ℕ
  expNeg : Bool
  expVal : ℕ
deriving DecidableEq

/-- Grammar of Python `float(s)` on the strings the workbook produces:
optional sign, integer digits, optional `.` + fractional digits, optional
exponent; anything else is rejected (which `_parse_currency` turns into
`0.0`, exactly as a `ValueError` would).  Exotic float syntax (`inf`,
`nan`, underscore separators) does not occur in the data and is rejected
here. -/
def parseNumRepr (cs0 : List Char) : Option NumRepr :=
  let (neg, cs₁) :=
    match cs0 with
    | '-' :: rest => (true, rest)
    | '+' :: rest => (false, rest)
    | rest => (false, rest)
  let intDigits := cs₁.takeWhile Char.isDigit
  let cs₂ := cs₁.drop intDigits.length
  let (fracDigits, cs₃) :=
    match cs₂ with
    | '.' :: rest => (rest.takeWhile Char.isDigit, rest.drop (rest.takeWhile Char.isDigit).length)
    | rest => (([] : List Char), rest)
  if intDigits = [] ∧ fracDigits = [] then Option.none
  else
    match cs₃ with
    | [] => Option.some ⟨neg, natOfDigits intDigits, natOfDigits fracDigits, fracDigits.length, false, 0⟩
    | e :: rest =>
      if e = 'e' ∨ e = 'E' then
        let (expNeg, rest₁) :=
          match rest with
          | '-' :: r => (true, r)
          | '+' :: r => (false, r)
          | r => (false, r)
        let eDigits := rest₁.takeWhile Char.isDigit
        if eDigits = [] ∨ rest₁.drop eDigits.length ≠ [] then Option.none
        else Option.some ⟨neg, natOfDigits intDigits, natOfDigits fracDigits, fracDigits.length, expNeg, natOfDigits eDigits⟩
      else Option.none

/-- Numeric value of a parsed float literal. -/
def reprValue (r : NumRepr) : ℚ :=
  (if r.neg then (-1 : ℚ) else 1) * ((r.intPart : ℚ) + (r.fracPart : ℚ) / (10 : ℚ) ^ r.fracLen)
    * (10 : ℚ) ^ ((if r.expNeg then (-1 : ℤ) else 1) * (r.expVal : ℤ))

/-- Python `float(s)`: parse a decimal literal, `Option.none` on failure. -/
def parseFloatChars (cs : List Char) : Option ℚ :=
  (parseNumRepr cs).map reprValue

/-- The string cleanup in `_parse_currency` (source line 60):
`str(val).strip().replace("$", "").replace(",", "").strip()`.  The two
`replace`s delete every `$` and `,` character. -/
def currencyClean (v : String) : List Char :=
  trimChars (((trimChars v.toList).filter (fun ch => ch ≠ '$')).filter (fun ch => ch ≠ ','))

/-- `_parse_currency` (source lines 51-66): `None` → `0.0`; numbers pass
through; datetimes → `0.0`; strings are cleaned of `$` and `,`, and an
empty or lone-`-` remainder yields `0.0`, as does an unparseable one
(`ValueError` branch). -/
def parseCurrency : PyVal → ℚ
  | PyVal.none => 0
  | PyVal.num q => q
  | PyVal.datetime => 0
  | PyVal.str v =>
    if currencyClean v = [] ∨ currencyClean v = ['-'] then 0
    else (parseFloatChars (currencyClean v)).getD 0

/-! ## Value reconciliation decisions (`fill_isr_ingresos_form`) -/

/-- Source line 1432: `need_ingresos_a_disminuir = diferencia > 1` with
`diferencia = sat_total_cobrados - excel_total_cobrados`. -/
def needIngresosADisminuir (satTotalCobrados excelTotalCobrados : ℚ) : Bool :=
  decide (satTotalCobrados - excelTotalCobrados > 1)

/-- Source line 1634: `need_ingresos_adicionales = diferencia_adicionales > 1`
with `diferencia_adicionales = excel_total_cobrados - sat_total_cobrados`
(the `x or 0.0` guards replace `0.0` by `0.0` and change nothing). -/
def needIngresosAdicionales (satTotalCobrados excelTotalCobrados : ℚ) : Bool :=
  decide (excelTotalCobrados - satTotalCobrados > 1)

/-- The yes/no dropdown label chosen from a branch decision
(source lines 1433 and 1635). -/
def siNoLabel (b : Bool) : String :=
  if b then "Sí" else "No"

/-- Python 3 `round(q)`: round half to even, as used on line 1460. -/
def pythonRound (q : ℚ) : ℤ :=
  if q - ⌊q⌋ < 1/2 then ⌊q⌋
  else if 1/2 < q - ⌊q⌋ then ⌊q⌋ + 1
  else if ⌊q⌋ % 2 = 0 then ⌊q⌋ else ⌊q⌋ + 1

/-- Source line 1460: the corrective amount of the decrease-disclosure
popup, `importe_val = int(round(diferencia))` (Python 3 `round` returns an
`int`, so the outer `int()` is the identity). -/
def importeDisminuir (diferencia : ℚ) : ℤ :=
  pythonRound diferencia

/-- Source line 1652: the corrective amount of the increase-disclosure
popup, `f"{diferencia_adicionales:,.2f}".replace(",", "")` — the delta
formatted with two decimal places (commas removed); its numeric value is
the delta rounded to cents, not a whole number. -/
def importeAdicionales (diferenciaAdicionales : ℚ) : ℚ :=
  (pythonRound (diferenciaAdicionales * 100) : ℚ) / 100

/-! ## Submission gate (`check_totals`, source lines 2163-2208) -/

/-- Lift an optional stored amount back to the Python value
`label_map.get(label)` feeds into `_parse_currency`. -/
def pyOfOpt : Option ℚ → PyVal
  | Option.none => PyVal.none
  | Option.some q => PyVal.num q

/-- Source lines 2195-2196: if the displayed grand total read as `0.0`
while a component was nonzero, `check_totals` substitutes the sum of the
observed components. -/
def satTotalEffective (satIsr satIva satTotalRead : ℚ) : ℚ :=
  if satTotalRead = 0 ∧ (satIsr ≠ 0 ∨ satIva ≠ 0) then satIsr + satIva else satTotalRead

/-- The figures carried by the `check_totals` message (source lines
2202-2207): expected (Excel) ISR/IVA/total and observed (SAT)
ISR/IVA/total. -/
structure TotalsReport where
  excelIsr : ℚ
  excelIva : ℚ
  excelTotal : ℚ
  satIsr : ℚ
  satIva : ℚ
  satTotal : ℚ
deriving DecidableEq

/-- `check_totals` (source lines 2163-2208).  Expected amounts come from
the Excel label map (`_parse_currency(label_map.get(...))`); the three
observed amounts are the values `_read_summary` produced from the page
(that helper returns `0.0` when nothing is found).  Each check is an
independent absolute-difference comparison against the tolerance; the
report models the figures embedded in the returned message. -/
def checkTotals (labelMap : String → Option ℚ) (satIsr satIva satTotalRead tol : ℚ) :
    Bool × TotalsReport :=
  let excelIsr := parseCurrency (pyOfOpt (labelMap "ISR a cargo"))
  let excelIva := parseCurrency (pyOfOpt (labelMap "IVA a cargo"))
  let excelTotal := excelIsr + excelIva
  let satTotal := satTotalEffective satIsr satIva satTotalRead
  let okIsr : Bool := decide (|satIsr - excelIsr| ≤ tol)
  let okIva : Bool := decide (|satIva - excelIva| ≤ tol)
  let okTotal : Bool := decide (|satTotal - excelTotal| ≤ tol)
  (okIsr && okIva && okTotal, ⟨excelIsr, excelIva, excelTotal, satIsr, satIva, satTotal⟩)

/-! ## The supervisor (`run`, normal flow, source lines 2496-2578)

One browser attempt is abstracted by `AttemptBehavior`: everything from
login up to the IVA fill either completes or raises an uncaught exception
(`preFault` — remote faults, HTTP 500 pages, missing controls raised as
`RuntimeError`); a completing attempt reaches `check_totals` with the
three observed summary readings, and `send_declaration`'s click either
succeeds (`sendOk`) or not.  `check_totals` and `send_declaration` return
normally, never raise.  Events record, in order, the externally visible
actions of `run`: attempt begin, the submission click, the `finally`
teardown (`logout_sat`, `context.close()`, `browser.close()` — source
lines 2565-2569), the `time.sleep(RETRY_WAIT_SECONDS)` cooling-off, and
`os._exit`. -/

inductive Event where
  | attemptStart : Event
  | sendFired : Event
  | logout : Event
  | closeContext : Event
  | closeBrowser : Event
  | sleepRetry : ℕ → Event
  | exitProc : ℕ → Event
deriving DecidableEq

/-- Source line 41: `RETRY_WAIT_SECONDS = 60`. -/
def RETRY_WAIT_SECONDS : ℕ := 60

/-- The `finally` block of one attempt (source lines 2565-2569):
`logout_sat` (which itself never raises), then `context.close()`, then
`browser.close()`. -/
def teardown : List Event :=
  [Event.logout, Event.closeContext, Event.closeBrowser]

/-- What one attempt of the `for attempt in range(2)` loop does:
whether it raised, which events it emitted, and the mismatch report it
printed to stderr when the totals gate failed. -/
structure AttemptRes where
  retVal : Option Bool
  events : List Event
  mismatch : Option TotalsReport

/-- Abstract behavior of the external world during one attempt. -/
structure AttemptBehavior where
  preFault : Bool
  satIsr : ℚ
  satIva : ℚ
  satTotal : ℚ
  sendOk : Bool

/-- One iteration of `run`'s attempt loop (source lines 2497-2569): on an
uncaught exception only the teardown runs and the exception propagates to
the `except` clause (`retVal = none`); otherwise `check_totals` gates
`send_declaration` — a failed gate logs the mismatch, prints it to stderr
and `return False` (source lines 2552-2557); a passed gate clicks the
submission button and returns its outcome (lines 2559-2564). -/
def runAttempt (labelMap : String → Option ℚ) (tol : ℚ) (b : AttemptBehavior) : AttemptRes :=
  if b.preFault then
    ⟨Option.none, Event.attemptStart :: teardown, Option.none⟩
  else if (checkTotals labelMap b.satIsr b.satIva b.satTotal tol).1 then
    if b.sendOk then
      ⟨Option.some true, Event.attemptStart :: Event.sendFired :: teardown, Option.none⟩
    else
      ⟨Option.some false, Event.attemptStart :: teardown, Option.none⟩
  else
    ⟨Option.some false, Event.attemptStart :: teardown,
      Option.some (checkTotals labelMap b.satIsr b.satIva b.satTotal tol).2⟩

/-- `run`'s retry loop, `for attempt in range(2)` (source lines
2496-2578): a normal return of the first attempt is the overall result;
an exception on the first attempt sleeps `RETRY_WAIT_SECONDS` and runs the
second attempt, whose normal return is the overall result; an exception on
the second attempt is overall failure.  There is no third iteration. -/
def run (labelMap : String → Option ℚ) (tol : ℚ) (bs : ℕ → AttemptBehavior) :
    Bool × List Event :=
  match (runAttempt labelMap tol (bs 0)).retVal with
  | Option.some r => (r, (runAttempt labelMap tol (bs 0)).events)
  | Option.none =>
    match (runAttempt labelMap tol (bs 1)).retVal with
    | Option.some r =>
      (r, (runAttempt labelMap tol (bs 0)).events
          ++ Event.sleepRetry RETRY_WAIT_SECONDS :: (runAttempt labelMap tol (bs 1)).events)
    | Option.none =>
      (false, (runAttempt labelMap tol (bs 0)).events
          ++ Event.sleepRetry RETRY_WAIT_SECONDS :: (runAttempt labelMap tol (bs 1)).events)

/-- `_on_sigint` (source lines 2268-2273): the installed SIGINT handler
prints a message to stderr and calls `os._exit(130)` — it deliberately
performs no remote interaction (no logout, no close; `os._exit` also skips
every `finally` block). -/
def onSigint : List Event :=
  [Event.exitProc 130]

/-! ## Locator resolution (`_try_fill` lines 432-499, `_try_click` lines 537-552)

Both helpers iterate a key's selector list in order; each iteration either
performs the action and returns `True` (`success`), falls through because
the locator matched nothing — `loc.count() == 0`, or fewer than two file
inputs for the second e.firma file (`skip`) — or swallows an exception
from the wait/act calls (`error`).  The DOM is abstracted by an
environment assigning each selector its outcome; `_try_fill`'s per-
selector branches (file inputs, `label=` references, plain selectors)
additionally depend on the key, so its environment also takes the key. -/

inductive StratOutcome where
  | success : StratOutcome
  | skip : StratOutcome
  | error : StratOutcome
deriving DecidableEq

/-- The selector loop of `_try_click` (source lines 541-551). -/
def tryClickList (env : String → StratOutcome) : List String → Bool
  | [] => false
  | sel :: rest =>
    match env sel with
    | StratOutcome.success => true
    | _ => tryClickList env rest

/-- Which selector the `_try_click` loop acted through (the one whose
`click()` ran just before `return True`). -/
def tryClickActed (env : String → StratOutcome) : List String → Option String
  | [] => Option.none
  | sel :: rest =>
    match env sel with
    | StratOutcome.success => Option.some sel
    | _ => tryClickActed env rest

/-- `_try_click` (source lines 537-552): a missing or empty selector list
returns `False` before the loop. -/
def tryClick (env : String → StratOutcome) (mapping : String → Option (List String))
    (key : String) : Bool :=
  match mapping key with
  | Option.none => false
  | Option.some sels => tryClickList env sels

/-- The selector loop of `_try_fill` (source lines 445-498); the
environment takes the key because the file-input and timeout branches
inspect it. -/
def tryFillList (env : String → String → StratOutcome) (key : String) : List String → Bool
  | [] => false
  | sel :: rest =>
    match env key sel with
    | StratOutcome.success => true
    | _ => tryFillList env key rest

/-- Which selector the `_try_fill` loop acted through. -/
def tryFillActed (env : String → String → StratOutcome) (key : String) :
    List String → Option String
  | [] => Option.none
  | sel :: rest =>
    match env key sel with
    | StratOutcome.success => Option.some sel
    | _ => tryFillActed env key rest

/-- `_try_fill` (source lines 432-499): `mapping.get(key)` missing or empty
returns `False` before the loop. -/
def tryFill (env : String → String → StratOutcome) (mapping : String → Option (List String))
    (key : String) : Bool :=
  match mapping key with
  | Option.none => false
  | Option.some sels => tryFillList env key sels

/-! ## `fill_obligation_section` (source lines 2149-2160) -/

/-- The loop body of `fill_obligation_section` for one label: look it up
in the external label map; a missing value (`None`) or an exact float
zero is skipped without touching the page; any other value gets exactly
one `_try_fill` attempt, recorded as the `(label, value)` pair.  (Values
in `label_map` are always Python floats — `read_impuestos` stores
`float(...)` or `_parse_currency` results — so the
`isinstance(value, float) and value == 0.0` test is the test
`value == 0.0`.) -/
def fillEntry (labelMap : String → Option ℚ) (label : String) : Option (String × ℚ) :=
  match labelMap label with
  | Option.none => Option.none
  | Option.some v => if v = 0 then Option.none else Option.some (label, v)

/-- The loop of `fill_obligation_section` over the label list. -/
def fillObligationSection (labelMap : String → Option ℚ) (labels : List String) :
    List (String × ℚ) :=
  labels.filterMap (fillEntry labelMap)

/-! ## Excel cached-value resolution (`_cell_display_value` lines 209-227,
`_parse_cell_ref` lines 78-91) -/

/-- Column letters folded to a 1-based column number
(`col = col * 26 + (ord(c) - ord("A") + 1)`). -/
def colOfLetters (ls : List Char) : ℕ :=
  ls.foldl (fun col c => col * 26 + (c.toNat - 'A'.toNat + 1)) 0

/-- `_parse_cell_ref` (source lines 78-91): strip whitespace, strip leading
`=`/`+` characters, strip again, uppercase, and match `^([A-Z]+)(\d+)$`;
returns `(row, col)` for a simple cell reference like `=F8` or `=+F8`,
none otherwise. -/
def parseCellRef (formula : String) : Option (ℕ × ℕ) :=
  let s := (trimChars ((trimChars formula.toList).dropWhile (fun ch => ch = '=' ∨ ch = '+'))).map Char.toUpper
  let letters := s.takeWhile (fun ch => 'A' ≤ ch ∧ ch ≤ 'Z')
  let rest := s.drop letters.length
  let digits := rest.takeWhile Char.isDigit
  if letters ≠ [] ∧ digits ≠ [] ∧ letters.length + digits.length = s.length then
    Option.some (natOfDigits digits, colOfLetters letters)
  else Option.none

/-- The cached-value test of `_cell_display_value` (source line 217):
`raw is not None and not (isinstance(raw, str) and str(raw).strip().startswith("="))`. -/
def cachedUsable : PyVal → Bool
  | PyVal.none => false
  | PyVal.str s =>
    match trimChars s.toList with
    | '=' :: _ => false
    | _ => true
  | PyVal.num _ => true
  | PyVal.datetime => true

/-- A workbook as `_cell_display_value` sees it: the `data_only=True`
sheet (`ws_data`, cached values), the `data_only=False` sheet
(`ws_formula`, stored formulas), and a finite set of coordinates outside
of which every cell is empty (`openpyxl` returns `None` beyond the used
range — a real worksheet is finite). -/
structure Workbook where
  dataC : ℕ × ℕ → PyVal
  formulaC : ℕ × ℕ → PyVal
  dom : Finset (ℕ × ℕ)
  hdom : ∀ p, p ∉ dom → dataC p = PyVal.none ∧ formulaC p = PyVal.none

/-- `_cell_display_value` (source lines 209-227): a revisited coordinate
returns `0.0`; a usable cached value is parsed as currency; otherwise a
numeric stored "formula" is returned directly, a simple-reference formula
is followed recursively with the current coordinate added to `visited`,
and anything else yields `0.0`.  Lean accepts the recursion because each
recursive call removes one in-domain coordinate from `dom \ visited` —
exactly the informal argument that the depth is bounded by the number of
distinct referenced cells. -/
def cellDisplayValue (wb : Workbook) (visited : Finset (ℕ × ℕ)) (r c : ℕ) : ℚ :=
  if hv : (r, c) ∈ visited then 0
  else if cachedUsable (wb.dataC (r, c)) then parseCurrency (wb.dataC (r, c))
  else
    match hf : wb.formulaC (r, c) with
    | PyVal.num q => q
    | PyVal.str f =>
      match parseCellRef f with
      | Option.some (r2, c2) => cellDisplayValue wb (insert (r, c) visited) r2 c2
      | Option.none => 0
    | PyVal.none => 0
    | PyVal.datetime => 0
termination_by (wb.dom \ visited).card
decreasing_by
  have hmem : (r, c) ∈ wb.dom := by
    by_contra hn
    have h2 := (wb.hdom _ hn).2
    rw [h2] at hf
    simp at hf
  have hss : wb.dom \ insert (r, c) visited = (wb.dom \ visited).erase (r, c) := by
    ext p
    simp only [Finset.mem_sdiff, Finset.mem_insert, Finset.mem_erase]
    tauto
  rw [hss]
  exact Finset.card_erase_lt_of_mem (Finset.mem_sdiff.mpr ⟨hmem, hv⟩)

/-! ## Theorems -/

/-- C8: the currency parser used by read-displayed-value strips `$` and
thousands-separator commas; `None`, empty, whitespace-only and lone-`-`
inputs all parse to exactly `0.0` (never a missing marker), while a
numeric-looking string such as `"$ 1,132,090"` parses to its float value.
(`trimChars s.toList = []` states that `s` is empty or whitespace-only,
`trimChars s.toList = ['-']` that `s` strips to a lone `-`.) -/
theorem parse_currency_spec :
    parseCurrency PyVal.none = 0
    ∧ (∀ s : String, trimChars s.toList = [] → parseCurrency (PyVal.str s) = 0)
    ∧ (∀ s : String, trimChars s.toList = ['-'] → parseCurrency (PyVal.str s) = 0)
    ∧ parseCurrency (PyVal.str "$ 1,132,090") = 1132090 := by
  refine ⟨rfl, ?_, ?_, ?_⟩
  · intro s h
    have h1 : currencyClean s = [] := by
      simp only [currencyClean, h]
      decide
    rw [parseCurrency, h1]
    simp
  · intro s h
    have h1 : currencyClean s = ['-'] := by
      simp only [currencyClean, h]
      decide
    rw [parseCurrency, h1]
    simp
  · have h1 : currencyClean "$ 1,132,090" = ['1', '1', '3', '2', '0', '9', '0'] := by decide
    have h2 : parseNumRepr ['1', '1', '3', '2', '0', '9', '0']
        = Option.some ⟨false, 1132090, 0, 0, false, 0⟩ := by decide
    rw [parseCurrency, h1, if_neg (by decide), parseFloatChars, h2]
    norm_num [reprValue]

/-- Witness for `parse_currency_spec` at concrete whitespace-only and
lone-dash inputs. -/
theorem parse_currency_spec_witness :
    parseCurrency (PyVal.str "   ") = 0 ∧ parseCurrency (PyVal.str " - ") = 0 :=
  ⟨parse_currency_spec.2.1 "   " (by decide), parse_currency_spec.2.2.1 " - " (by decide)⟩

/-- C7: for one pair of observed (SAT) and expected (Excel) income totals
with the hard-coded tolerance 1, the decrease branch (`SAT − Excel > 1`)
and the increase branch (`Excel − SAT > 1`) can never both decide `Sí`:
at most one of the two yes/no decisions is yes. -/
theorem disminuir_adicionales_exclusive :
    ∀ sat excel : ℚ,
      (needIngresosADisminuir sat excel && needIngresosAdicionales sat excel) = false
      ∧ (siNoLabel (needIngresosADisminuir sat excel) = "No"
         ∨ siNoLabel (needIngresosAdicionales sat excel) = "No") := by
  intro sat excel
  by_cases h : sat - excel > 1
  · have h2 : ¬(excel - sat > 1) := by linarith
    exact ⟨by simp [needIngresosADisminuir, needIngresosAdicionales, h2],
      Or.inr (by simp [siNoLabel, needIngresosAdicionales, h2])⟩
  · exact ⟨by simp [needIngresosADisminuir, h],
      Or.inl (by simp [siNoLabel, needIngresosADisminuir, h])⟩

/-- C4 (code bug): the decrease-branch corrective amount is
`int(round(diferencia))`, which rounds (half to even) instead of
truncating: for delta `8178.81` the code enters `8179`, while its own
inline comment (source line 1459, `e.g. 8178.81 → 8178`) and the spec
call for the truncation `8178`.  The spec example `8.50 → 8` happens to
agree only because `round` rounds the half-way case to the even `8`.  The
increase branch does not produce a whole number at all: it enters the
delta formatted with two decimals (`8.50` stays `8.50`). -/
theorem importe_rounding_bug :
    importeDisminuir (817881/100) = 8179
    ∧ importeDisminuir (817881/100) ≠ 8178
    ∧ importeDisminuir (17/2) = 8
    ∧ importeAdicionales (17/2) = 17/2 := by
  have hf1 : (⌊(817881/100 : ℚ)⌋ : ℤ) = 8178 := by
    rw [Int.floor_eq_iff] <;> norm_num
  have hf2 : (⌊(17/2 : ℚ)⌋ : ℤ) = 8 := by
    rw [Int.floor_eq_iff] <;> norm_num
  have hf3 : (⌊(17/2 * 100 : ℚ)⌋ : ℤ) = 850 := by
    rw [Int.floor_eq_iff] <;> norm_num
  refine ⟨?_, ?_, ?_, ?_⟩
  · rw [importeDisminuir, pythonRound, hf1]
    norm_num
  · rw [importeDisminuir, pythonRound, hf1]
    norm_num
  · rw [importeDisminuir, pythonRound, hf2]
    norm_num
  · rw [importeAdicionales, pythonRound, hf3]
    norm_num

/-- An already-visited coordinate returns `0.0` immediately. -/
lemma cellDisplayValue_visited (wb : Workbook) (visited : Finset (ℕ × ℕ)) (r c : ℕ)
    (h : (r, c) ∈ visited) : cellDisplayValue wb visited r c = 0 := by
  rw [cellDisplayValue]
  simp [h]

/-- One recursive step: no cached value, a simple-reference formula. -/
lemma cellDisplayValue_step (wb : Workbook) (visited : Finset (ℕ × ℕ)) (r c r2 c2 : ℕ)
    (f : String) (h1 : (r, c) ∉ visited) (h2 : cachedUsable (wb.dataC (r, c)) = false)
    (h3 : wb.formulaC (r, c) = PyVal.str f) (h4 : parseCellRef f = Option.some (r2, c2)) :
    cellDisplayValue wb visited r c = cellDisplayValue wb (insert (r, c) visited) r2 c2 := by
  rw [cellDisplayValue, dif_neg h1, if_neg (by simp [h2])]
  split
  · rename_i q heq
    simp [h3] at heq
  · rename_i f2 heq
    rw [h3] at heq
    injection heq with hff
    subst hff
    rw [h4]
  · rename_i heq
    simp [h3] at heq
  · rename_i heq
    simp [h3] at heq

/-- A cell with no cached value whose stored formula is not numeric and
not a parseable simple reference yields `0.0`. -/
lemma cellDisplayValue_unparseable (wb : Workbook) (visited : Finset (ℕ × ℕ)) (r c : ℕ)
    (f : String) (h1 : (r, c) ∉ visited) (h2 : cachedUsable (wb.dataC (r, c)) = false)
    (h3 : wb.formulaC (r, c) = PyVal.str f) (h4 : parseCellRef f = Option.none) :
    cellDisplayValue wb visited r c = 0 := by
  rw [cellDisplayValue, dif_neg h1, if_neg (by simp [h2])]
  split
  · rename_i q heq
    simp [h3] at heq
  · rename_i f2 heq
    rw [h3] at heq
    injection heq with hff
    subst hff
    rw [h4]
  · rename_i heq
    simp [h3] at heq
  · rename_i heq
    simp [h3] at heq

/-- The cyclic two-cell workbook of the claim: `F8 = "=F9"` and
`F9 = "=F8"` as stored formulas, no cached values anywhere. -/
def wbCyc : Workbook where
  dataC := fun _ => PyVal.none
  formulaC := fun p =>
    if p = (8, 6) then PyVal.str "=F9" else if p = (9, 6) then PyVal.str "=F8" else PyVal.none
  dom := {(8, 6), (9, 6)}
  hdom := by
    intro p hp
    simp only [Finset.mem_insert, Finset.mem_singleton] at hp
    push_neg at hp
    exact ⟨rfl, by simp [hp.1, hp.2]⟩

/-- C10: the recursive resolver of cached Excel cell values terminates on
every workbook (the definition `cellDisplayValue` itself is accepted with
the measure `(dom \ visited).card`, each recursive step inserting the
current coordinate into the threaded visited set); a revisited coordinate
returns `0.0`; a coordinate holding neither a cached value, a numeric
literal, nor a parseable simple reference returns `0.0`; and the cyclic
chain `F8 = "=F9"`, `F9 = "=F8"` evaluates to `0.0`. -/
theorem cell_display_value_spec :
    (∀ (wb : Workbook) (visited : Finset (ℕ × ℕ)) (r c : ℕ),
      (r, c) ∈ visited → cellDisplayValue wb visited r c = 0)
    ∧ (∀ (wb : Workbook) (visited : Finset (ℕ × ℕ)) (r c : ℕ) (f : String),
      (r, c) ∉ visited → cachedUsable (wb.dataC (r, c)) = false →
      wb.formulaC (r, c) = PyVal.str f → parseCellRef f = Option.none →
      cellDisplayValue wb visited r c = 0)
    ∧ parseCellRef "=F9" = Option.some (9, 6)
    ∧ parseCellRef "=F8" = Option.some (8, 6)
    ∧ cellDisplayValue wbCyc ∅ 8 6 = 0 := by
  refine ⟨cellDisplayValue_visited, cellDisplayValue_unparseable, by decide, by decide, ?_⟩
  have s1 : cellDisplayValue wbCyc ∅ 8 6
      = cellDisplayValue wbCyc (insert (8, 6) ∅) 9 6 :=
    cellDisplayValue_step wbCyc ∅ 8 6 9 6 "=F9" (by simp) rfl rfl (by decide)
  have s2 : cellDisplayValue wbCyc (insert (8, 6) ∅) 9 6
      = cellDisplayValue wbCyc (insert (9, 6) (insert (8, 6) ∅)) 8 6 :=
    cellDisplayValue_step wbCyc (insert (8, 6) ∅) 9 6 8 6 "=F8" (by simp) rfl rfl (by decide)
  rw [s1, s2]
  exact cellDisplayValue_visited wbCyc _ 8 6 (by simp)

/-- The claim's unparseable-formula case at a concrete cell: a workbook
whose only cell stores the non-reference formula `=F8+F9`. -/
def wbPlus : Workbook where
  dataC := fun _ => PyVal.none
  formulaC := fun p => if p = (3, 3) then PyVal.str "=F8+F9" else PyVal.none
  dom := {(3, 3)}
  hdom := by
    intro p hp
    simp only [Finset.mem_singleton] at hp
    exact ⟨rfl, by simp [hp]⟩

/-- Witness for `cell_display_value_spec` at a concrete visited set and a
concrete unparseable-formula cell. -/
theorem cell_display_value_spec_witness :
    cellDisplayValue wbCyc {(1, 1)} 1 1 = 0
    ∧ cellDisplayValue wbPlus ∅ 3 3 = 0 :=
  ⟨cell_display_value_spec.1 wbCyc {(1, 1)} 1 1 (by simp),
   cell_display_value_spec.2.1 wbPlus ∅ 3 3 "=F8+F9" (by simp) rfl rfl (by decide)⟩

/-- `fillEntry` on an absent label. -/
lemma fillEntry_none {labelMap : String → Option ℚ} {label : String}
    (h : labelMap label = Option.none) : fillEntry labelMap label = Option.none := by
  rw [fillEntry, h]

/-- `fillEntry` on a label stored as exactly zero. -/
lemma fillEntry_zero {labelMap : String → Option ℚ} {label : String} {v : ℚ}
    (h : labelMap label = Option.some v) (hv : v = 0) :
    fillEntry labelMap label = Option.none := by
  rw [fillEntry, h]
  show (if v = 0 then Option.none else Option.some (label, v)) = Option.none
  rw [if_pos hv]

/-- `fillEntry` on a label present with a nonzero value. -/
lemma fillEntry_some {labelMap : String → Option ℚ} {label : String} {v : ℚ}
    (h : labelMap label = Option.some v) (hv : v ≠ 0) :
    fillEntry labelMap label = Option.some (label, v) := by
  rw [fillEntry, h]
  show (if v = 0 then Option.none else Option.some (label, v)) = _
  rw [if_neg hv]

/-- Every fill attempt issued by `fill_obligation_section` concerns a
label from the list whose looked-up value is present and nonzero. -/
lemma fillObligationSection_mem {labelMap : String → Option ℚ} {labels : List String}
    {x : String × ℚ} (hx : x ∈ fillObligationSection labelMap labels) :
    x.1 ∈ labels ∧ labelMap x.1 = Option.some x.2 ∧ x.2 ≠ 0 := by
  rw [fillObligationSection, List.mem_filterMap] at hx
  obtain ⟨a, ha, hfa⟩ := hx
  cases heq : labelMap a with
  | none => rw [fillEntry_none heq] at hfa; cases hfa
  | some v =>
    by_cases hv : v = 0
    · rw [fillEntry_zero heq hv] at hfa; cases hfa
    · rw [fillEntry_some heq hv] at hfa
      obtain rfl := Option.some.inj hfa
      exact ⟨ha, heq, hv⟩

/-- A label outside the list never appears among the fill attempts. -/
lemma fillObligationSection_countP_zero (labelMap : String → Option ℚ)
    (labels : List String) (l : String) (hl : l ∉ labels) :
    (fillObligationSection labelMap labels).countP (fun x => decide (x.1 = l)) = 0 := by
  rw [List.countP_eq_zero]
  intro x hx
  have := (fillObligationSection_mem hx).1
  simp only [decide_eq_true_eq]
  intro hxl
  exact hl (hxl ▸ this)

/-- C9: when filling the additional declared-amount sections, a label
whose external value is absent or exactly zero gets no fill attempt at
all (skipped, not zero-filled), and a label of the list present with a
nonzero value gets exactly one fill attempt. -/
theorem fill_obligation_skip_spec :
    ∀ (labelMap : String → Option ℚ) (labels : List String) (l : String),
      ((labelMap l = Option.none ∨ labelMap l = Option.some 0) →
        ∀ v : ℚ, (l, v) ∉ fillObligationSection labelMap labels)
      ∧ (labels.Nodup → l ∈ labels → ∀ v : ℚ, labelMap l = Option.some v → v ≠ 0 →
        (fillObligationSection labelMap labels).countP (fun x => decide (x.1 = l)) = 1) := by
  intro labelMap labels l
  constructor
  · intro h v hx
    obtain ⟨-, hsome, hne⟩ := fillObligationSection_mem hx
    cases h with
    | inl h0 => rw [h0] at hsome; cases hsome
    | inr h0 => rw [h0] at hsome; exact hne (Option.some.inj hsome).symm
  · intro hnd hl v hv hvne
    induction labels with
    | nil => cases hl
    | cons a rest ih =>
      rw [List.nodup_cons] at hnd
      by_cases hal : a = l
      · subst hal
        have hcons : fillObligationSection labelMap (a :: rest)
            = (a, v) :: fillObligationSection labelMap rest := by
          rw [fillObligationSection, fillObligationSection]
          exact List.filterMap_cons_some (fillEntry_some hv hvne)
        rw [hcons, List.countP_cons]
        have hz := fillObligationSection_countP_zero labelMap rest a hnd.1
        simp [hz]
      · have hlr : l ∈ rest := by
          cases List.mem_cons.mp hl with
          | inl h0 => exact absurd h0.symm hal
          | inr h0 => exact h0
        have hrec := ih hnd.2 hlr
        cases hma : labelMap a with
        | none =>
          have hcons : fillObligationSection labelMap (a :: rest)
              = fillObligationSection labelMap rest := by
            rw [fillObligationSection, fillObligationSection]
            exact List.filterMap_cons_none (fillEntry_none hma)
          rw [hcons]
          exact hrec
        | some w =>
          by_cases hw : w = 0
          · have hcons : fillObligationSection labelMap (a :: rest)
                = fillObligationSection labelMap rest := by
              rw [fillObligationSection, fillObligationSection]
              exact List.filterMap_cons_none (fillEntry_zero hma hw)
            rw [hcons]
            exact hrec
          · have hcons : fillObligationSection labelMap (a :: rest)
                = (a, w) :: fillObligationSection labelMap rest := by
              rw [fillObligationSection, fillObligationSection]
              exact List.filterMap_cons_some (fillEntry_some hma hw)
            rw [hcons, List.countP_cons]
            simp [hal, hrec]

/-- The label map of the witness: one nonzero label, one explicit zero,
everything else absent. -/
def lmW : String → Option ℚ := fun l =>
  if l = "Ingresos nominales facturados" then Option.some 5
  else if l = "ISR a cargo" then Option.some 0
  else Option.none

/-- Witness for `fill_obligation_skip_spec`: over the labels
`["Ingresos nominales facturados", "ISR a cargo", "IVA a cargo"]` the
nonzero label is attempted exactly once, and the zero/absent labels are
never attempted. -/
theorem fill_obligation_skip_spec_witness :
    (fillObligationSection lmW ["Ingresos nominales facturados", "ISR a cargo", "IVA a cargo"]).countP
      (fun x => decide (x.1 = "Ingresos nominales facturados")) = 1
    ∧ ("ISR a cargo", (0 : ℚ))
        ∉ fillObligationSection lmW ["Ingresos nominales facturados", "ISR a cargo", "IVA a cargo"]
    ∧ ("IVA a cargo", (7 : ℚ))
        ∉ fillObligationSection lmW ["Ingresos nominales facturados", "ISR a cargo", "IVA a cargo"] :=
  ⟨(fill_obligation_skip_spec lmW
        ["Ingresos nominales facturados", "ISR a cargo", "IVA a cargo"]
        "Ingresos nominales facturados").2 (by decide) (by decide) 5 rfl (by norm_num),
   (fill_obligation_skip_spec lmW
        ["Ingresos nominales facturados", "ISR a cargo", "IVA a cargo"]
        "ISR a cargo").1 (Or.inr rfl) 0,
   (fill_obligation_skip_spec lmW
        ["Ingresos nominales facturados", "ISR a cargo", "IVA a cargo"]
        "IVA a cargo").1 (Or.inl rfl) 7⟩

/-- `_try_click`'s loop acts through exactly the first selector whose
outcome is success (`List.find?` order). -/
lemma tryClickActed_eq_find (env : String → StratOutcome) (sels : List String) :
    tryClickActed env sels = sels.find? (fun s => decide (env s = StratOutcome.success)) := by
  induction sels with
  | nil => rfl
  | cons a t ih =>
    cases h : env a <;> simp [tryClickActed, List.find?, h, ih]

/-- `_try_click`'s loop returns true exactly when some selector succeeds. -/
lemma tryClickList_eq_find (env : String → StratOutcome) (sels : List String) :
    tryClickList env sels = (sels.find? (fun s => decide (env s = StratOutcome.success))).isSome := by
  induction sels with
  | nil => rfl
  | cons a t ih =>
    cases h : env a <;> simp [tryClickList, List.find?, h, ih]

/-- `_try_fill` analogue of `tryClickActed_eq_find`. -/
lemma tryFillActed_eq_find (env : String → String → StratOutcome) (key : String)
    (sels : List String) :
    tryFillActed env key sels = sels.find? (fun s => decide (env key s = StratOutcome.success)) := by
  induction sels with
  | nil => rfl
  | cons a t ih =>
    cases h : env key a <;> simp [tryFillActed, List.find?, h, ih]

/-- `_try_fill` analogue of `tryClickList_eq_find`. -/
lemma tryFillList_eq_find (env : String → String → StratOutcome) (key : String)
    (sels : List String) :
    tryFillList env key sels
      = (sels.find? (fun s => decide (env key s = StratOutcome.success))).isSome := by
  induction sels with
  | nil => rfl
  | cons a t ih =>
    cases h : env key a <;> simp [tryFillList, List.find?, h, ih]

/-- C6: both resolvers (`_try_fill` and `_try_click`) try a key's
candidate strategies strictly in list order and act through the first one
that succeeds (`List.find?` semantics); when the first fails and the
second succeeds, the action goes through the second, never the first;
when every strategy fails, the result is the plain return value `false`
(the loop swallows exceptions, it never propagates one). -/
theorem strategy_first_success :
    ∀ (envC : String → StratOutcome) (envF : String → String → StratOutcome)
      (mapping : String → Option (List String)) (key : String) (sels : List String),
      (tryClickActed envC sels = sels.find? (fun s => decide (envC s = StratOutcome.success))
        ∧ tryClickList envC sels
            = (sels.find? (fun s => decide (envC s = StratOutcome.success))).isSome
        ∧ tryFillActed envF key sels
            = sels.find? (fun s => decide (envF key s = StratOutcome.success))
        ∧ tryFillList envF key sels
            = (sels.find? (fun s => decide (envF key s = StratOutcome.success))).isSome)
      ∧ (∀ s1 s2 : String, ∀ rest : List String,
          envC s1 ≠ StratOutcome.success → envC s2 = StratOutcome.success →
          tryClickActed envC (s1 :: s2 :: rest) = Option.some s2)
      ∧ (∀ s1 s2 : String, ∀ rest : List String,
          envF key s1 ≠ StratOutcome.success → envF key s2 = StratOutcome.success →
          tryFillActed envF key (s1 :: s2 :: rest) = Option.some s2)
      ∧ (mapping key = Option.some sels → (∀ s ∈ sels, envC s ≠ StratOutcome.success) →
          tryClick envC mapping key = false)
      ∧ (mapping key = Option.some sels → (∀ s ∈ sels, envF key s ≠ StratOutcome.success) →
          tryFill envF mapping key = false)
      ∧ (mapping key = Option.none →
          tryClick envC mapping key = false ∧ tryFill envF mapping key = false) := by
  intro envC envF mapping key sels
  refine ⟨⟨tryClickActed_eq_find envC sels, tryClickList_eq_find envC sels,
      tryFillActed_eq_find envF key sels, tryFillList_eq_find envF key sels⟩,
    ?_, ?_, ?_, ?_, ?_⟩
  · intro s1 s2 rest h1 h2
    rw [tryClickActed_eq_find]
    simp [List.find?, h1, h2]
  · intro s1 s2 rest h1 h2
    rw [tryFillActed_eq_find]
    simp [List.find?, h1, h2]
  · intro hm hall
    rw [tryClick, hm]
    show tryClickList envC sels = false
    rw [tryClickList_eq_find, List.find?_eq_none.mpr]
    · rfl
    · intro s hs
      simp [hall s hs]
  · intro hm hall
    rw [tryFill, hm]
    show tryFillList envF key sels = false
    rw [tryFillList_eq_find, List.find?_eq_none.mpr]
    · rfl
    · intro s hs
      simp [hall s hs]
  · intro hm
    rw [tryClick, tryFill, hm]
    exact ⟨rfl, rfl⟩

/-- The witness mock DOM: the first strategy is absent, the second
succeeds. -/
def envMock : String → StratOutcome := fun s =>
  if s = "second" then StratOutcome.success else StratOutcome.skip

/-- Witness for `strategy_first_success`: on the mock DOM the action goes
through the second strategy, and with no successful strategy the click
resolver returns false. -/
theorem strategy_first_success_witness :
    tryClickActed envMock ["first", "second"] = Option.some "second"
    ∧ tryClick (fun _ => StratOutcome.error) (fun _ => Option.some ["first", "second"]) "k" = false :=
  ⟨(strategy_first_success envMock (fun _ _ => StratOutcome.skip)
      (fun _ => Option.none) "k" []).2.1 "first" "second" [] (by decide) (by decide),
   (strategy_first_success (fun _ => StratOutcome.error) (fun _ _ => StratOutcome.skip)
      (fun _ => Option.some ["first", "second"]) "k" ["first", "second"]).2.2.2.1 rfl
      (fun s _ => by decide)⟩

/-- The label map of the spec's submission-gate examples:
expected ISR 500, expected IVA 300. -/
def lmEx : String → Option ℚ := fun l =>
  if l = "ISR a cargo" then Option.some 500
  else if l = "IVA a cargo" then Option.some 300
  else Option.none

/-- C1 counterexample: with expected ISR 500 and IVA 300, observed
ISR 500 and IVA 300 but an observed grand total that read as `0` from the
page, `check_totals` substitutes the component sum (source lines
2195-2196) and passes, although the absolute difference between the
total read from the page and the expected total is `800 > 1` — so "ok
exactly when all three differences against the values read from the page
are within tolerance" is false as stated. -/
theorem check_totals_gate_counterexample :
    (checkTotals lmEx 500 300 0 1).1 = true ∧ ¬(|(0 : ℚ) - (500 + 300)| ≤ 1) := by
  have h1 : parseCurrency (pyOfOpt (lmEx "ISR a cargo")) = 500 := rfl
  have h2 : parseCurrency (pyOfOpt (lmEx "IVA a cargo")) = 300 := rfl
  constructor
  · simp only [checkTotals, h1, h2]
    norm_num [satTotalEffective]
  · rw [abs_le]
    intro h
    linarith [h.1]

/-- C1 (amended): `check_totals` returns ok exactly when the observed ISR,
observed IVA and the effective observed total are each within the
tolerance of their expected counterparts — where the effective total is
the value read from the page unless that read is zero while a component
is nonzero, in which case the component sum is used; the submission click
(`send_declaration`) fires only when the gate returned ok; the spec's two
examples hold: {expected ISR 500, IVA 300; observed ISR 500, IVA 299.5}
with tolerance 1 passes all three checks, and observed ISR 503 against
expected ISR 500 fails regardless of the IVA/total readings. -/
theorem check_totals_gate_spec :
    (∀ (lm : String → Option ℚ) (satIsr satIva satTotalRead tol : ℚ),
      (checkTotals lm satIsr satIva satTotalRead tol).1 = true ↔
        (|satIsr - parseCurrency (pyOfOpt (lm "ISR a cargo"))| ≤ tol
         ∧ |satIva - parseCurrency (pyOfOpt (lm "IVA a cargo"))| ≤ tol
         ∧ |satTotalEffective satIsr satIva satTotalRead
              - (parseCurrency (pyOfOpt (lm "ISR a cargo"))
                 + parseCurrency (pyOfOpt (lm "IVA a cargo")))| ≤ tol))
    ∧ (∀ (lm : String → Option ℚ) (tol : ℚ) (b : AttemptBehavior),
        Event.sendFired ∈ (runAttempt lm tol b).events →
        (checkTotals lm b.satIsr b.satIva b.satTotal tol).1 = true)
    ∧ (checkTotals lmEx 500 (599/2) (1599/2) 1).1 = true
    ∧ (∀ satIva satTotalRead : ℚ, (checkTotals lmEx 503 satIva satTotalRead 1).1 = false) := by
  have h1 : parseCurrency (pyOfOpt (lmEx "ISR a cargo")) = 500 := rfl
  have h2 : parseCurrency (pyOfOpt (lmEx "IVA a cargo")) = 300 := rfl
  have hIff : ∀ (lm : String → Option ℚ) (satIsr satIva satTotalRead tol : ℚ),
      (checkTotals lm satIsr satIva satTotalRead tol).1 = true ↔
        (|satIsr - parseCurrency (pyOfOpt (lm "ISR a cargo"))| ≤ tol
         ∧ |satIva - parseCurrency (pyOfOpt (lm "IVA a cargo"))| ≤ tol
         ∧ |satTotalEffective satIsr satIva satTotalRead
              - (parseCurrency (pyOfOpt (lm "ISR a cargo"))
                 + parseCurrency (pyOfOpt (lm "IVA a cargo")))| ≤ tol) := by
    intro lm satIsr satIva satTotalRead tol
    simp [checkTotals, Bool.and_eq_true, decide_eq_true_eq, and_assoc]
  refine ⟨hIff, ?_, ?_, ?_⟩
  · intro lm tol b h
    rw [runAttempt] at h
    by_cases hf : b.preFault
    · simp [hf, teardown] at h
    · cases hg : (checkTotals lm b.satIsr b.satIva b.satTotal tol).1 with
      | true => rfl
      | false => simp [hf, hg, teardown] at h
  · simp only [checkTotals, h1, h2]
    norm_num [satTotalEffective, abs_le]
  · intro satIva satTotalRead
    cases hb : (checkTotals lmEx 503 satIva satTotalRead 1).1 with
    | false => rfl
    | true =>
      exfalso
      have hc := ((hIff lmEx 503 satIva satTotalRead 1).mp hb).1
      rw [h1, abs_le] at hc
      linarith [hc.2]

/-- Witness for `check_totals_gate_spec` at a concrete observed triple. -/
theorem check_totals_gate_spec_witness :
    (checkTotals lmEx 503 0 0 1).1 = false :=
  check_totals_gate_spec.2.2.2 0 0

/-- Every attempt begins exactly one iteration of the loop. -/
lemma runAttempt_countP_start (lm : String → Option ℚ) (tol : ℚ) (b : AttemptBehavior) :
    (runAttempt lm tol b).events.countP (fun e => decide (e = Event.attemptStart)) = 1 := by
  rw [runAttempt]
  split_ifs <;> simp [teardown, List.countP_cons]

/-- No attempt itself sleeps; only the retry path of `run` does. -/
lemma runAttempt_countP_sleep (lm : String → Option ℚ) (tol : ℚ) (b : AttemptBehavior) :
    (runAttempt lm tol b).events.countP
      (fun e => decide (e = Event.sleepRetry RETRY_WAIT_SECONDS)) = 0 := by
  rw [runAttempt]
  split_ifs <;> simp [teardown, List.countP_cons]

/-- A faulting first attempt makes `run` sleep and take the second
attempt's outcome. -/
lemma run_eq_of_fault (lm : String → Option ℚ) (tol : ℚ) (bs : ℕ → AttemptBehavior)
    (hf : (bs 0).preFault = true) :
    run lm tol bs = (((runAttempt lm tol (bs 1)).retVal).getD false,
      (runAttempt lm tol (bs 0)).events
        ++ Event.sleepRetry RETRY_WAIT_SECONDS :: (runAttempt lm tol (bs 1)).events) := by
  have h0 : (runAttempt lm tol (bs 0)).retVal = Option.none := by
    rw [runAttempt, if_pos hf]
  rw [run]
  simp only [h0]
  cases h1 : (runAttempt lm tol (bs 1)).retVal <;> simp [h1]

/-- A non-faulting attempt returns normally. -/
lemma runAttempt_retVal_of_no_fault (lm : String → Option ℚ) (tol : ℚ) (b : AttemptBehavior)
    (hf : b.preFault = false) :
    ∃ r : Bool, (runAttempt lm tol b).retVal = Option.some r := by
  rw [runAttempt, if_neg (by simp [hf])]
  by_cases hg : (checkTotals lm b.satIsr b.satIva b.satTotal tol).1 = true
  · rw [if_pos hg]
    by_cases hs : b.sendOk = true
    · rw [if_pos hs]
      exact ⟨true, rfl⟩
    · rw [if_neg hs]
      exact ⟨false, rfl⟩
  · rw [if_neg hg]
    exact ⟨false, rfl⟩

/-- A normally-returning first attempt is the whole of `run`. -/
lemma run_eq_of_return (lm : String → Option ℚ) (tol : ℚ) (bs : ℕ → AttemptBehavior)
    (r : Bool) (h0 : (runAttempt lm tol (bs 0)).retVal = Option.some r) :
    run lm tol bs = (r, (runAttempt lm tol (bs 0)).events) := by
  rw [run]
  simp only [h0]

/-- C2: the whole phase sequence is wrapped by exactly one bounded retry
with the fixed cooling-off delay `RETRY_WAIT_SECONDS`: an uncaught
exception on the first attempt leads to exactly one recorded sleep and a
second attempt (two loop iterations in total); a successful second
attempt is overall success; a failing second attempt is overall failure;
and no execution ever starts a third attempt. -/
theorem run_retry_budget :
    ∀ (lm : String → Option ℚ) (tol : ℚ) (bs : ℕ → AttemptBehavior),
      ((bs 0).preFault = true →
        ((run lm tol bs).2.countP (fun e => decide (e = Event.attemptStart)) = 2
         ∧ (run lm tol bs).2.countP
             (fun e => decide (e = Event.sleepRetry RETRY_WAIT_SECONDS)) = 1
         ∧ ((runAttempt lm tol (bs 1)).retVal = Option.some true → (run lm tol bs).1 = true)
         ∧ ((bs 1).preFault = true → (run lm tol bs).1 = false)))
      ∧ (run lm tol bs).2.countP (fun e => decide (e = Event.attemptStart)) ≤ 2 := by
  intro lm tol bs
  constructor
  · intro hf
    rw [run_eq_of_fault lm tol bs hf]
    refine ⟨?_, ?_, ?_, ?_⟩
    · simp [List.countP_append, List.countP_cons, runAttempt_countP_start]
    · simp [List.countP_append, List.countP_cons, runAttempt_countP_sleep]
    · intro h1
      simp [h1]
    · intro hf1
      have h1 : (runAttempt lm tol (bs 1)).retVal = Option.none := by
        rw [runAttempt, if_pos hf1]
      simp [h1]
  · cases hf : (bs 0).preFault with
    | true =>
      rw [run_eq_of_fault lm tol bs hf]
      simp [List.countP_append, List.countP_cons, runAttempt_countP_start]
    | false =>
      obtain ⟨r, hr⟩ := runAttempt_retVal_of_no_fault lm tol (bs 0) hf
      rw [run_eq_of_return lm tol bs r hr]
      simp [runAttempt_countP_start]

/-- Witness for `run_retry_budget`: a concrete schedule that faults once
and then passes the gate and the submission click succeeds — overall
success with exactly one sleep. -/
theorem run_retry_budget_witness :
    (run lmEx 1 (fun n => if n = 0 then ⟨true, 0, 0, 0, true⟩ else ⟨false, 500, 300, 800, true⟩)).2.countP
      (fun e => decide (e = Event.sleepRetry RETRY_WAIT_SECONDS)) = 1 :=
  ((run_retry_budget lmEx 1
      (fun n => if n = 0 then ⟨true, 0, 0, 0, true⟩ else ⟨false, 500, 300, 800, true⟩)).1
    rfl).2.1

/-- C3 counterexample: on an external interrupt no logout attempt and no
resource release happens before the process exits — the SIGINT handler
only prints and calls `os._exit(130)` (which also skips the `finally`
teardown), deliberately avoiding any remote call from the handler. -/
theorem sigint_no_logout_counterexample :
    Event.logout ∉ onSigint
    ∧ Event.closeContext ∉ onSigint
    ∧ Event.closeBrowser ∉ onSigint
    ∧ onSigint = [Event.exitProc 130] := by
  refine ⟨?_, ?_, ?_, rfl⟩ <;> simp [onSigint]

/-- C3 (amended): on the success, reconciliation-failure and
uncaught-exception exits of a run (every exit of the attempt loop), an
attempt to log out of the remote session followed by the release of the
browsing context and the browser happens before `run` returns — the
`finally` teardown is a suffix of each attempt's events and of the whole
run's events; on an external interrupt (SIGINT), by design, the handler
performs no remote interaction and only terminates the process with exit
code 130. -/
theorem run_teardown_on_exit :
    ∀ (lm : String → Option ℚ) (tol : ℚ) (bs : ℕ → AttemptBehavior) (b : AttemptBehavior),
      List.IsSuffix teardown (runAttempt lm tol b).events
      ∧ List.IsSuffix teardown (run lm tol bs).2
      ∧ teardown = [Event.logout, Event.closeContext, Event.closeBrowser]
      ∧ onSigint = [Event.exitProc 130] := by
  intro lm tol bs b
  have hAtt : ∀ b2 : AttemptBehavior, List.IsSuffix teardown (runAttempt lm tol b2).events := by
    intro b2
    rw [runAttempt]
    split_ifs
    · exact ⟨[Event.attemptStart], rfl⟩
    · exact ⟨[Event.attemptStart, Event.sendFired], rfl⟩
    · exact ⟨[Event.attemptStart], rfl⟩
    · exact ⟨[Event.attemptStart], rfl⟩
  refine ⟨hAtt b, ?_, rfl, rfl⟩
  cases hf : (bs 0).preFault with
  | false =>
    obtain ⟨r, hr⟩ := runAttempt_retVal_of_no_fault lm tol (bs 0) hf
    rw [run_eq_of_return lm tol bs r hr]
    exact hAtt (bs 0)
  | true =>
    rw [run_eq_of_fault lm tol bs hf]
    have hsplit : (runAttempt lm tol (bs 0)).events
        ++ Event.sleepRetry RETRY_WAIT_SECONDS :: (runAttempt lm tol (bs 1)).events
        = ((runAttempt lm tol (bs 0)).events ++ [Event.sleepRetry RETRY_WAIT_SECONDS])
          ++ (runAttempt lm tol (bs 1)).events := by
      simp
    rw [hsplit]
    exact (hAtt (bs 1)).trans (List.suffix_append _ _)

/-- Witness for `run_teardown_on_exit` at a concrete totals-failure run. -/
theorem run_teardown_on_exit_witness :
    List.IsSuffix teardown (run lmEx 1 (fun _ => ⟨false, 503, 0, 0, true⟩)).2 :=
  (run_teardown_on_exit lmEx 1 (fun _ => ⟨false, 503, 0, 0, true⟩)
    ⟨false, 503, 0, 0, true⟩).2.1

/-- C5: a failed submission-time totals check halts the run before
submitting — no submission click happens, the mismatch report with the
full expected and observed figures is emitted (stderr print of the
message), and the run returns `False` by a normal return: the attempt
loop ends on iteration one, no cooling-off sleep and no second attempt
take place. -/
theorem totals_failure_halts_without_retry :
    ∀ (lm : String → Option ℚ) (tol : ℚ) (bs : ℕ → AttemptBehavior),
      (bs 0).preFault = false →
      (checkTotals lm (bs 0).satIsr (bs 0).satIva (bs 0).satTotal tol).1 = false →
        (run lm tol bs).1 = false
        ∧ Event.sendFired ∉ (run lm tol bs).2
        ∧ (run lm tol bs).2.countP (fun e => decide (e = Event.attemptStart)) = 1
        ∧ Event.sleepRetry RETRY_WAIT_SECONDS ∉ (run lm tol bs).2
        ∧ (runAttempt lm tol (bs 0)).mismatch
            = Option.some (checkTotals lm (bs 0).satIsr (bs 0).satIva (bs 0).satTotal tol).2 := by
  intro lm tol bs hf hg
  have hAtt : runAttempt lm tol (bs 0)
      = ⟨Option.some false, Event.attemptStart :: teardown,
          Option.some (checkTotals lm (bs 0).satIsr (bs 0).satIva (bs 0).satTotal tol).2⟩ := by
    rw [runAttempt]
    simp [hf, hg]
  have hrun : run lm tol bs = (false, Event.attemptStart :: teardown) := by
    rw [run_eq_of_return lm tol bs false (by rw [hAtt])]
    rw [hAtt]
  refine ⟨?_, ?_, ?_, ?_, ?_⟩
  · rw [hrun]
  · rw [hrun]
    simp [teardown]
  · rw [hrun]
    simp [teardown, List.countP_cons]
  · rw [hrun]
    simp [teardown, RETRY_WAIT_SECONDS]
  · rw [hAtt]

/-- Witness for `totals_failure_halts_without_retry` at a concrete
mismatching run (observed ISR 503 against expected 500). -/
theorem totals_failure_halts_without_retry_witness :
    (run lmEx 1 (fun _ => ⟨false, 503, 0, 0, true⟩)).1 = false :=
  (totals_failure_halts_without_retry lmEx 1 (fun _ => ⟨false, 503, 0, 0, true⟩)
    rfl (by
      have h1 : parseCurrency (pyOfOpt (lmEx "ISR a cargo")) = 500 := rfl
      have hno : ¬(|(503 : ℚ) - 500| ≤ 1) := by
        rw [abs_le]
        intro hh
        linarith [hh.2]
      simp [checkTotals, h1, decide_eq_false hno])).1

end SatFiller
